import Mathlib

/-!
Verification development for the multipatch experiment database layer
(database.py and config.py): a shallow embedding of the schema-driven
ORM mapping engine, the binary array marshalling, the relationship
graph with its cascade-delete policy, the default-session wrapper and
the timestamp lookup functions, together with theorems settling the
specification claims about them.
-/

/-! ## Column types and the column type registry -/

/-- Physical column types used by the mapping layer.  The values
integer, string, boolean, float, date, datetime, largeBinary and jsonb
mirror the imported storage types; ndarray and floatType mirror the two
TypeDecorator classes NDArray (impl LargeBinary) and FloatType
(impl Float) defined in database.py. -/
inductive SqlType
  | integer
  | string
  | boolean
  | float
  | date
  | datetime
  | largeBinary
  | jsonb
  | ndarray
  | floatType
  deriving DecidableEq, Repr

/-- A column of a generated mapping class, mirroring the arguments the
source passes to the Column constructor: the physical type, an optional
foreign key target, the primary-key flag, the default-now and
onupdate-now markers used by the implicit timestamp columns, the comment
and the unique constraint. -/
structure Column where
  ctype : SqlType
  foreignKey : Option String := none
  primaryKey : Bool := false
  defaultNow : Bool := false
  onupdateNow : Bool := false
  comment : Option String := none
  unique : Bool := false
  deriving DecidableEq, Repr

instance : Inhabited Column := ⟨{ ctype := SqlType.integer }⟩

/-- A column descriptor as written in table_schemas: a tuple of column
name, logical type string, optional comment (position 2) and optional
keyword map (position 3, only the unique flag is used). -/
structure ColumnDescr where
  name : String
  coltype : String
  comment : Option String := none
  kwds : List ( String × Bool) := []
  deriving DecidableEq, Repr

/-- A table descriptor: the table name (the key in the table_schemas
dict), the optional leading documentation string, and the column
descriptors. -/
structure TableDescr where
  tname : String
  tcomment : Option String := none
  cols : List ColumnDescr
  deriving DecidableEq, Repr

/-- The _coltypes registry from database.py, mapping logical type names
to physical column types. -/
def _coltypes : List ( String × SqlType) :=
  [ ( "int", SqlType.integer),
    ( "float", SqlType.floatType),
    ( "bool", SqlType.boolean),
    ( "str", SqlType.string),
    ( "date", SqlType.date),
    ( "datetime", SqlType.datetime),
    ( "array", SqlType.ndarray),
    ( "object", SqlType.jsonb) ]

/-- Python str.endswith, used by _generate_mapping to recognize
foreign-key type strings. -/
def pyEndswith (s suffix : String) : Bool :=
  suffix.data.isSuffixOf s.data

/-- Python str.capitalize, used to derive the mapping class name from
the table name. -/
def pyCapitalize (s : String) : String :=
  match s.data with
  | [] => ""
  | c :: rest => ⟨c.toUpper :: rest.map Char.toLower⟩

/-- Resolution of one column descriptor, mirroring the per-column body
of _generate_mapping: a type found in _coltypes yields a column of that
physical type; otherwise a type string ending in .id yields an integer
foreign-key column; otherwise a ValueError naming the unrecognized type
is raised.  The comment and the unique keyword are carried over in all
successful cases. -/
def resolveColumn (c : ColumnDescr) : Except String Column :=
  match List.lookup c.coltype _coltypes with
  | some t =>
      Except.ok { ctype := t, comment := c.comment,
                  unique := (List.lookup "unique" c.kwds).getD false }
  | none =>
      if pyEndswith c.coltype ".id" then
        Except.ok { ctype := SqlType.integer, foreignKey := some c.coltype,
                    comment := c.comment,
                    unique := (List.lookup "unique" c.kwds).getD false }
      else
        Except.error ( "Unrecognized column type " ++ c.coltype)

/-- Whether a column descriptor resolves without an error. -/
def resolvable (c : ColumnDescr) : Bool :=
  (List.lookup c.coltype _coltypes).isSome || pyEndswith c.coltype ".id"

/-- The successful resolution of a column descriptor (defaulting when
the descriptor does not resolve; only used under a resolvability
hypothesis). -/
def resolveVal (c : ColumnDescr) : Column :=
  match resolveColumn c with
  | Except.ok col => col
  | Except.error _ => default

/-- Python dict assignment on an association list: assigning to an
existing key replaces its value in place, otherwise the binding is
appended. -/
def dictInsert (k : String) (v : Column) : List ( String × Column) → List ( String × Column)
  | [] => [(k, v)]
  | (k2, v2) :: rest =>
      if k2 = k then (k, v) :: rest else (k2, v2) :: dictInsert k v rest

/-- The implicit columns every generated mapping class starts with:
id is the integer surrogate primary key. -/
def idColumn : Column := { ctype := SqlType.integer, primaryKey := true }

/-- Implicit column time_created, set by the storage clock at insertion
(default func.now in the source). -/
def timeCreatedColumn : Column := { ctype := SqlType.datetime, defaultNow := true }

/-- Implicit column time_modified, refreshed by the storage clock on
update (onupdate func.current_timestamp in the source). -/
def timeModifiedColumn : Column := { ctype := SqlType.datetime, onupdateNow := true }

/-- Implicit column meta, an open-ended JSONB attachment. -/
def metaColumn : Column := { ctype := SqlType.jsonb }

/-- The initial props dict of _generate_mapping, holding the four
implicit columns in insertion order. -/
def implicitProps : List ( String × Column) :=
  [ ( "id", idColumn),
    ( "time_created", timeCreatedColumn),
    ( "time_modified", timeModifiedColumn),
    ( "meta", metaColumn) ]

/-- The loop of _generate_mapping over the declared columns: each
descriptor is resolved and assigned into the props dict, the first
unresolvable descriptor aborting the generation with its ValueError. -/
def buildProps (cols : List ColumnDescr) (props : List ( String × Column)) :
    Except String (List ( String × Column)) :=
  match cols with
  | [] => Except.ok props
  | c :: rest =>
      match resolveColumn c with
      | Except.error e => Except.error e
      | Except.ok col => buildProps rest (dictInsert c.name col props)

/-- A generated ORM mapping class: class name, table name, table
comment and the props dict of columns. -/
structure MappingClass where
  clsName : String
  tablename : String
  tableComment : Option String
  props : List ( String × Column)
  deriving DecidableEq, Repr

/-- The _generate_mapping function of database.py: capitalize the table
name, peel the optional leading comment (represented here in the
tcomment field of the descriptor), seed the props dict with the four
implicit columns and fold the declared columns over it. -/
def _generate_mapping (t : TableDescr) : Except String MappingClass :=
  match buildProps t.cols implicitProps with
  | Except.error e => Except.error e
  | Except.ok props =>
      Except.ok { clsName := pyCapitalize t.tname, tablename := t.tname,
                  tableComment := t.tcomment, props := props }

/-! ## The schema descriptor set (table_schemas from database.py) -/

/-- Table descriptor slice. -/
def sliceTable : TableDescr :=
  { tname := "slice",
    tcomment := some "All brain slices on which an experiment was attempted.",
    cols :=
      [ { name := "acq_timestamp", coltype := "datetime",
          comment := some "Creation timestamp for slice data acquisition folder.",
          kwds := [( "unique", true)] },
        { name := "species", coltype := "str",
          comment := some "Human | mouse (from LIMS)" },
        { name := "age", coltype := "int",
          comment := some "Specimen age (in days) at time of dissection (from LIMS)" },
        { name := "genotype", coltype := "str",
          comment := some "Specimen donor genotype (from LIMS)" },
        { name := "orientation", coltype := "str",
          comment := some "Orientation of the slice plane (eg sagittal; from LIMS specimen name)" },
        { name := "surface", coltype := "str",
          comment := some "The surface of the slice exposed during the experiment (eg left; from LIMS specimen name)" },
        { name := "hemisphere", coltype := "str",
          comment := some "The brain hemisphere from which the slice originated. (from LIMS specimen name)" },
        { name := "quality", coltype := "int",
          comment := some "Experimenter subjective slice quality assessment (0-5)" },
        { name := "slice_time", coltype := "datetime",
          comment := some "Time when this specimen was sliced" },
        { name := "slice_conditions", coltype := "object",
          comment := some "JSON containing solutions, perfusion, incubation time, etc." },
        { name := "lims_specimen_name", coltype := "str",
          comment := some "Name of LIMS slice specimen" },
        { name := "original_path", coltype := "str",
          comment := some "Original path of the slice folder on the acquisition rig" },
        { name := "submission_data", coltype := "object" } ] }

/-- Table descriptor experiment. -/
def experimentTable : TableDescr :=
  { tname := "experiment",
    tcomment := some "A group of cells patched simultaneously in the same slice.",
    cols :=
      [ { name := "original_path", coltype := "str",
          comment := some "Describes original location of raw data" },
        { name := "acq_timestamp", coltype := "datetime",
          comment := some "Creation timestamp for site data acquisition folder.",
          kwds := [( "unique", true)] },
        { name := "slice_id", coltype := "slice.id" },
        { name := "target_region", coltype := "str",
          comment := some "The intended brain region for this experiment" },
        { name := "internal", coltype := "str",
          comment := some "The name of the internal solution used in this experiment. The solution should be described in the pycsf database." },
        { name := "acsf", coltype := "str",
          comment := some "The name of the ACSF solution used in this experiment. The solution should be described in the pycsf database." },
        { name := "target_temperature", coltype := "float" },
        { name := "date", coltype := "datetime" },
        { name := "lims_specimen_id", coltype := "int",
          comment := some "ID of LIMS CellCluster specimen." },
        { name := "submission_data", coltype := "object",
          comment := some "structure generated for original submission." },
        { name := "lims_trigger_id", coltype := "int",
          comment := some "ID used to query status of LIMS upload." },
        { name := "connectivity_analysis_complete", coltype := "bool" },
        { name := "kinetics_analysis_complete", coltype := "bool" } ] }

/-- Table descriptor electrode. -/
def electrodeTable : TableDescr :=
  { tname := "electrode",
    tcomment := some "Each electrode records a patch attempt, whether or not it resulted in a successful cell recording.",
    cols :=
      [ { name := "expt_id", coltype := "experiment.id" },
        { name := "patch_status", coltype := "str",
          comment := some "no seal, low seal, GOhm seal, tech fail, ..." },
        { name := "device_key", coltype := "int" },
        { name := "initial_resistance", coltype := "float" },
        { name := "initial_current", coltype := "float" },
        { name := "pipette_offset", coltype := "float" },
        { name := "final_resistance", coltype := "float" },
        { name := "final_current", coltype := "float" },
        { name := "notes", coltype := "str" } ] }

/-- Table descriptor cell (no table comment in the source). -/
def cellTable : TableDescr :=
  { tname := "cell",
    cols :=
      [ { name := "electrode_id", coltype := "electrode.id" },
        { name := "cre_type", coltype := "str" },
        { name := "patch_start", coltype := "float" },
        { name := "patch_stop", coltype := "float" },
        { name := "seal_resistance", coltype := "float" },
        { name := "has_biocytin", coltype := "bool" },
        { name := "has_dye_fill", coltype := "bool" },
        { name := "pass_qc", coltype := "bool" },
        { name := "pass_spike_qc", coltype := "bool" },
        { name := "depth", coltype := "float" },
        { name := "position", coltype := "object" } ] }

/-- Table descriptor pair. -/
def pairTable : TableDescr :=
  { tname := "pair",
    tcomment := some "All possible putative synaptic connections",
    cols :=
      [ { name := "pre_cell", coltype := "cell.id" },
        { name := "post_cell", coltype := "cell.id" },
        { name := "synapse", coltype := "bool",
          comment := some "Whether the experimenter thinks there is a synapse" },
        { name := "electrical", coltype := "bool",
          comment := some "whether the experimenter thinks there is a gap junction" } ] }

/-- Table descriptor sync_rec.  Its declared meta column collides with
the implicit meta column. -/
def syncRecTable : TableDescr :=
  { tname := "sync_rec",
    cols :=
      [ { name := "experiment_id", coltype := "experiment.id" },
        { name := "sync_rec_key", coltype := "object" },
        { name := "temperature", coltype := "float" },
        { name := "meta", coltype := "object" } ] }

/-- Table descriptor recording. -/
def recordingTable : TableDescr :=
  { tname := "recording",
    cols :=
      [ { name := "sync_rec_id", coltype := "sync_rec.id",
          comment := some "References the synchronous recording to which this recording belongs." },
        { name := "device_key", coltype := "int",
          comment := some "Identifies the device that generated this recording (this is usually the MIES AD channel)" },
        { name := "start_time", coltype := "datetime",
          comment := some "The clock time at the start of this recording" } ] }

/-- Table descriptor patch_clamp_recording. -/
def patchClampRecordingTable : TableDescr :=
  { tname := "patch_clamp_recording",
    tcomment := some "Extra data for recordings made with a patch clamp amplifier",
    cols :=
      [ { name := "recording_id", coltype := "recording.id" },
        { name := "electrode_id", coltype := "electrode.id",
          comment := some "References the patch electrode that was used during this recording" },
        { name := "clamp_mode", coltype := "str",
          comment := some "The mode used by the patch clamp amplifier: ic or vc" },
        { name := "patch_mode", coltype := "str",
          comment := some "The state of the membrane patch. E.g. whole cell, cell attached, loose seal, bath, inside out, outside out" },
        { name := "stim_name", coltype := "object",
          comment := some "The name of the stimulus protocol" },
        { name := "baseline_potential", coltype := "float" },
        { name := "baseline_current", coltype := "float" },
        { name := "baseline_rms_noise", coltype := "float" },
        { name := "nearest_test_pulse_id", coltype := "test_pulse.id" } ] }

/-- Table descriptor multi_patch_probe. -/
def multiPatchProbeTable : TableDescr :=
  { tname := "multi_patch_probe",
    tcomment := some "Extra data for multipatch recordings intended to test synaptic connections.",
    cols :=
      [ { name := "patch_clamp_recording_id", coltype := "patch_clamp_recording.id" },
        { name := "induction_frequency", coltype := "float" },
        { name := "recovery_delay", coltype := "float" },
        { name := "n_spikes_evoked", coltype := "int" } ] }

/-- Table descriptor test_pulse. -/
def testPulseTable : TableDescr :=
  { tname := "test_pulse",
    cols :=
      [ { name := "start_index", coltype := "int" },
        { name := "stop_index", coltype := "int" },
        { name := "baseline_current", coltype := "float" },
        { name := "baseline_potential", coltype := "float" },
        { name := "access_resistance", coltype := "float" },
        { name := "input_resistance", coltype := "float" },
        { name := "capacitance", coltype := "float" },
        { name := "time_constant", coltype := "float" } ] }

/-- Table descriptor stim_pulse. -/
def stimPulseTable : TableDescr :=
  { tname := "stim_pulse",
    tcomment := some "A pulse stimulus intended to evoke an action potential",
    cols :=
      [ { name := "recording_id", coltype := "recording.id" },
        { name := "pulse_number", coltype := "int" },
        { name := "onset_time", coltype := "float" },
        { name := "onset_index", coltype := "int" },
        { name := "next_pulse_index", coltype := "int" },
        { name := "amplitude", coltype := "float" },
        { name := "length", coltype := "int" },
        { name := "n_spikes", coltype := "int" } ] }

/-- Table descriptor stim_spike. -/
def stimSpikeTable : TableDescr :=
  { tname := "stim_spike",
    tcomment := some "An evoked action potential",
    cols :=
      [ { name := "recording_id", coltype := "recording.id" },
        { name := "pulse_id", coltype := "stim_pulse.id" },
        { name := "peak_index", coltype := "int" },
        { name := "peak_diff", coltype := "float" },
        { name := "peak_val", coltype := "float" },
        { name := "rise_index", coltype := "int" },
        { name := "max_dvdt", coltype := "float" } ] }

/-- Table descriptor baseline. -/
def baselineTable : TableDescr :=
  { tname := "baseline",
    tcomment := some "A snippet of baseline data, matched to a postsynaptic recording",
    cols :=
      [ { name := "recording_id", coltype := "recording.id",
          comment := some "The recording from which this baseline snippet was extracted." },
        { name := "start_index", coltype := "int",
          comment := some "start index of this snippet, relative to the beginning of the recording" },
        { name := "stop_index", coltype := "int",
          comment := some "stop index of this snippet, relative to the beginning of the recording" },
        { name := "data", coltype := "array",
          comment := some "numpy array of baseline data sampled at 20kHz" },
        { name := "mode", coltype := "float",
          comment := some "most common value in the baseline snippet" } ] }

/-- Table descriptor pulse_response. -/
def pulseResponseTable : TableDescr :=
  { tname := "pulse_response",
    tcomment := some "A postsynaptic recording taken during a presynaptic stimulus",
    cols :=
      [ { name := "recording_id", coltype := "recording.id" },
        { name := "pulse_id", coltype := "stim_pulse.id" },
        { name := "pair_id", coltype := "pair.id" },
        { name := "start_index", coltype := "int" },
        { name := "stop_index", coltype := "int" },
        { name := "data", coltype := "array",
          comment := some "numpy array of response data sampled at 20kHz" },
        { name := "baseline_id", coltype := "baseline.id" } ] }

/-- The full table_schemas descriptor set of database.py. -/
def table_schemas : List TableDescr :=
  [ sliceTable, experimentTable, electrodeTable, cellTable, pairTable,
    syncRecTable, recordingTable, patchClampRecordingTable,
    multiPatchProbeTable, testPulseTable, stimPulseTable, stimSpikeTable,
    baselineTable, pulseResponseTable ]

/-! ## Relationship graph and cascade-delete semantics -/

/-- A relationship declaration, mirroring one relationship(...) call of
database.py: the table whose mapping class holds the navigation
attribute, the attribute name, the target table, the cascade delete
flag, the single_parent flag and the back_populates attribute.  Mapping
classes and tables correspond one to one, so edges are recorded on
table names. -/
structure RelEdge where
  src : String
  attr : String
  tgt : String
  cascadeDelete : Bool
  singleParent : Bool
  backPopulates : Option String
  deriving DecidableEq, Repr

/-- The relationship declarations of database.py, in source order. -/
def relationships : List RelEdge :=
  [ { src := "slice", attr := "experiments", tgt := "experiment",
      cascadeDelete := false, singleParent := false, backPopulates := some "slice" },
    { src := "experiment", attr := "slice", tgt := "slice",
      cascadeDelete := false, singleParent := false, backPopulates := some "experiments" },
    { src := "experiment", attr := "sync_recs", tgt := "sync_rec",
      cascadeDelete := true, singleParent := true, backPopulates := some "experiment" },
    { src := "sync_rec", attr := "experiment", tgt := "experiment",
      cascadeDelete := false, singleParent := false, backPopulates := some "sync_recs" },
    { src := "sync_rec", attr := "recordings", tgt := "recording",
      cascadeDelete := true, singleParent := true, backPopulates := some "sync_rec" },
    { src := "recording", attr := "sync_rec", tgt := "sync_rec",
      cascadeDelete := false, singleParent := false, backPopulates := some "recordings" },
    { src := "recording", attr := "patch_clamp_recording", tgt := "patch_clamp_recording",
      cascadeDelete := true, singleParent := true, backPopulates := some "recording" },
    { src := "patch_clamp_recording", attr := "recording", tgt := "recording",
      cascadeDelete := false, singleParent := false, backPopulates := some "patch_clamp_recording" },
    { src := "patch_clamp_recording", attr := "multi_patch_probe", tgt := "multi_patch_probe",
      cascadeDelete := true, singleParent := true, backPopulates := some "patch_clamp_recording" },
    { src := "multi_patch_probe", attr := "patch_clamp_recording", tgt := "patch_clamp_recording",
      cascadeDelete := false, singleParent := false, backPopulates := some "multi_patch_probe" },
    { src := "patch_clamp_recording", attr := "nearest_test_pulse", tgt := "test_pulse",
      cascadeDelete := true, singleParent := true, backPopulates := none },
    { src := "recording", attr := "stim_pulses", tgt := "stim_pulse",
      cascadeDelete := true, singleParent := true, backPopulates := some "recording" },
    { src := "stim_pulse", attr := "recording", tgt := "recording",
      cascadeDelete := false, singleParent := false, backPopulates := some "stim_pulses" },
    { src := "recording", attr := "stim_spikes", tgt := "stim_spike",
      cascadeDelete := true, singleParent := true, backPopulates := some "recording" },
    { src := "stim_spike", attr := "recording", tgt := "recording",
      cascadeDelete := false, singleParent := false, backPopulates := some "stim_spikes" },
    { src := "stim_spike", attr := "pulse", tgt := "stim_pulse",
      cascadeDelete := false, singleParent := false, backPopulates := none },
    { src := "recording", attr := "baselines", tgt := "baseline",
      cascadeDelete := true, singleParent := true, backPopulates := some "recording" },
    { src := "baseline", attr := "recording", tgt := "recording",
      cascadeDelete := false, singleParent := false, backPopulates := some "baselines" },
    { src := "pulse_response", attr := "recording", tgt := "recording",
      cascadeDelete := false, singleParent := false, backPopulates := none },
    { src := "pulse_response", attr := "stim_pulse", tgt := "stim_pulse",
      cascadeDelete := false, singleParent := false, backPopulates := none },
    { src := "pulse_response", attr := "baseline", tgt := "baseline",
      cascadeDelete := false, singleParent := false, backPopulates := none } ]

/-- An entity instance, identified by its table and its id. -/
abbrev EntityRef := String × Nat

/-- An instance-level navigation link: the entity holding the
relationship attribute, the attribute name, and the related entity. -/
abbrev EntLink := EntityRef × String × EntityRef

/-- One step of ORM delete-cascade propagation: the entities related to
some already-deleted entity through a relationship attribute whose
declaration carries the delete cascade. -/
def cascadeTargets (rels : List RelEdge) (links : List EntLink) (cur : List EntityRef) :
    List EntityRef :=
  (links.filter fun l =>
      cur.contains l.1 &&
      rels.any fun r => r.src == l.1.1 && r.attr == l.2.1 && r.cascadeDelete).map
    fun l => l.2.2

/-- Extend the set of deleted entities by one cascade step. -/
def delStep (rels : List RelEdge) (links : List EntLink) (cur : List EntityRef) :
    List EntityRef :=
  cur ++ (cascadeTargets rels links cur).filter fun e => !cur.contains e

/-- Iterate the cascade step a given number of times. -/
def iterSteps (rels : List RelEdge) (links : List EntLink) :
    Nat → List EntityRef → List EntityRef
  | 0, cur => cur
  | n + 1, cur => iterSteps rels links n (delStep rels links cur)

/-- All entities removed by deleting one entity: the cascade closure of
the delete, following instance links whose relationship declaration has
the delete cascade.  One extra iteration per link suffices to reach the
closure. -/
def deleteClosure (rels : List RelEdge) (links : List EntLink) (e : EntityRef) :
    List EntityRef :=
  iterSteps rels links (links.length + 1) [e]

/-- The database contents remaining after deleting one entity together
with its cascade closure. -/
def deleteCascade (rels : List RelEdge) (links : List EntLink)
    (db : List EntityRef) (e : EntityRef) : List EntityRef :=
  db.filter fun x => !(deleteClosure rels links e).contains x

/-! ## Binary array marshalling (NDArray via the NPY format) -/

/-- A numpy array at the bit level: the dtype kind byte (for example
102 for the float kind f), the element size in bytes, the shape, and
the raw bit pattern of each element in C order.  Working on bit
patterns makes round-trip statements bit-exact, NaN payloads
included. -/
structure NpArray where
  dtypeKind : Nat
  itemsize : Nat
  shape : List Nat
  data : List Nat
  deriving DecidableEq, Repr

/-- Little-endian encoding of a natural number into a fixed number of
bytes. -/
def leBytes : Nat → Nat → List Nat
  | 0, _ => []
  | k + 1, n => (n % 256) :: leBytes k (n / 256)

/-- Little-endian decoding of a byte list. -/
def fromLE : List Nat → Nat
  | [] => 0
  | b :: bs => b + 256 * fromLE bs

/-- Read a fixed count of elements of a fixed byte width from a byte
stream, mirroring how the NPY loader reads the data segment. -/
def readElems (k : Nat) : Nat → List Nat → List Nat
  | 0, _ => []
  | c + 1, bs => fromLE (bs.take k) :: readElems k c (bs.drop k)

/-- Parse a fixed number of dimensions, eight bytes each, from the
header tail, returning the shape and the remaining bytes. -/
def parseShape : Nat → List Nat → Option (List Nat × List Nat)
  | 0, bs => some ([], bs)
  | n + 1, bs =>
      if bs.length < 8 then none
      else
        match parseShape n (bs.drop 8) with
        | some (sh, rest) => some (fromLE (bs.take 8) :: sh, rest)
        | none => none

/-- The header of the NPY payload: the dtype kind byte, the element
size, the fortran_order flag (always the byte 0: the arrays bound by
this layer are C ordered) and the shape, each number in eight
little-endian bytes preceded by the dimension count.  This is a
structured rendering of the descr, fortran_order and shape entries of
the NPY version 1.0 header dictionary. -/
def npyHeader (a : NpArray) : List Nat :=
  a.dtypeKind :: (leBytes 8 a.itemsize ++ 0 :: (leBytes 8 a.shape.length ++
    a.shape.flatMap (leBytes 8)))

/-- The eight fixed leading bytes of an NPY version 1.0 file: the magic
string and the version pair. -/
def npyMagic : List Nat := [147, 78, 85, 77, 80, 89, 1, 0]

/-- Serialization of an array in the NPY format, modelling the
np.save call of NDArray.process_bind_param: magic and version, the
header length in two little-endian bytes, the header, then the raw
element bytes in C order. -/
def np_save (a : NpArray) : List Nat :=
  npyMagic ++ leBytes 2 (npyHeader a).length ++ npyHeader a ++
    a.data.flatMap (leBytes a.itemsize)

/-- Parse the NPY header fields. -/
def parseHeader (bs : List Nat) : Option (Nat × Nat × List Nat) :=
  match bs with
  | [] => none
  | k :: rest =>
      if rest.length < 17 then none
      else
        let isz := fromLE (rest.take 8)
        let r2 := rest.drop 8
        if r2.take 1 ≠ [0] then none
        else
          let r3 := r2.drop 1
          let ndim := fromLE (r3.take 8)
          match parseShape ndim (r3.drop 8) with
          | some (sh, rest4) => if rest4.isEmpty then some (k, isz, sh) else none
          | none => none

/-- Deserialization of an NPY payload, modelling the np.load call of
NDArray.process_result_value with allow_pickle disabled: check the
magic and version, read the header length, parse the header, then read
exactly as many elements as the shape demands, failing on any truncated
or malformed payload rather than falling back to pickle. -/
def np_load (bs : List Nat) : Except String NpArray :=
  if bs.take 8 ≠ npyMagic then
    Except.error "Failed to interpret file as NPY data"
  else
    let r1 := bs.drop 8
    if r1.length < 2 then Except.error "EOF while reading header length"
    else
      let hlen := fromLE (r1.take 2)
      let r2 := r1.drop 2
      if r2.length < hlen then Except.error "EOF while reading header"
      else
        match parseHeader (r2.take hlen) with
        | none => Except.error "Invalid NPY header"
        | some (k, isz, sh) =>
            let dataBytes := r2.drop hlen
            if dataBytes.length < sh.prod * isz then
              Except.error "array data could not be fully read"
            else
              Except.ok { dtypeKind := k, itemsize := isz, shape := sh,
                          data := readElems isz sh.prod dataBytes }

/-- Well-formedness of an array value: the kind is one byte, the
element size is positive and fits the header field, there are at most
32 dimensions (the numpy limit) each fitting its header field, the data
holds exactly one bit pattern per array cell, and each bit pattern fits
the element size. -/
def wfArray (a : NpArray) : Prop :=
  a.dtypeKind < 256 ∧ 1 ≤ a.itemsize ∧ a.itemsize < 256 ^ 8 ∧
  a.shape.length ≤ 32 ∧ (∀ d ∈ a.shape, d < 256 ^ 8) ∧
  a.data.length = a.shape.prod ∧ ∀ x ∈ a.data, x < 256 ^ a.itemsize

instance (a : NpArray) : Decidable (wfArray a) := by
  unfold wfArray
  infer_instance

/-- The bind transform of the NDArray type decorator: np.save of the
value into a fresh buffer with allow_pickle disabled.  A Python None
value is coerced by np.save to a zero-dimensional object array, which
allow_pickle=False rejects, so binding None raises the numpy
ValueError instead of producing a blob. -/
def NDArray.process_bind_param (value : Option NpArray) : Except String (List Nat) :=
  match value with
  | none => Except.error "Object arrays cannot be saved when allow_pickle=False"
  | some a => Except.ok (np_save a)

/-- The decode transform of the NDArray type decorator: np.load of the
stored blob with allow_pickle disabled. -/
def NDArray.process_result_value (value : List Nat) : Except String NpArray :=
  np_load value

/-- The bind transform of the FloatType type decorator: None passes
through unchanged, any other numeric value is coerced with float(). -/
def FloatType.process_bind_param (value : Option Rat) : Except String (Option Rat) :=
  match value with
  | none => Except.ok none
  | some v => Except.ok (some v)

/-! ## Characterization of the generated props dict -/

/-- The last column descriptor with a given name, mirroring the fact
that later dict assignments win. -/
def findLast (n : String) : List ColumnDescr → Option ColumnDescr
  | [] => none
  | c :: rest =>
      match findLast n rest with
      | some c2 => some c2
      | none => if c.name = n then some c else none

/-- The props dict produced by folding resolved columns over an
initial dict with Python dict assignment. -/
def applyCols (cols : List ColumnDescr) (props : List ( String × Column)) :
    List ( String × Column) :=
  cols.foldl (fun p c => dictInsert c.name (resolveVal c) p) props

/-! ## Session wrapper and timestamp lookups -/

/-- An operation a unit-of-work function performs on its session:
staging a write into the pending transaction, or committing the
pending writes into the shared store. -/
inductive SessOp
  | write (v : Nat)
  | commit
  deriving DecidableEq, Repr

/-- A unit-of-work function as seen by the default_session wrapper: the
session operations it performs, and its outcome (a returned value or a
raised exception). -/
structure UnitOfWork (α : Type) where
  actions : List SessOp
  outcome : Except String α

/-- Run session operations against a committed store: writes accumulate
in the pending transaction, a commit publishes pending writes to the
store.  The result is the committed store and the leftover pending
writes, which are discarded when the session is closed without a
commit. -/
def runSession (db : List Nat) (acts : List SessOp) : List Nat × List Nat :=
  acts.foldl
    (fun st a =>
      match a with
      | SessOp.write v => (st.1, st.2 ++ [v])
      | SessOp.commit => (st.1 ++ st.2, []))
    (db, [])

/-- The observable outcome of one call through the default_session
wrapper: which session the wrapped function ran with, whether the
wrapper opened a fresh session, whether the wrapper closed that session,
the committed store afterwards, and the propagated result. -/
structure WrapResult (α : Type) where
  sessionUsed : Nat
  openedNew : Bool
  closedByWrapper : Bool
  committedDb : List Nat
  result : Except String α
  deriving Repr

/-- The default_session decorator of database.py.  close starts False;
when the caller passes no session (or passes None), a fresh session is
created and close is set; the wrapped function runs inside a
try/finally whose finally clause closes the session exactly when close
is set, on the normal path and on the exception path alike.  Closing
discards the pending uncommitted writes of the session; the wrapper
itself never commits. -/
def default_session {α : Type} (fn : UnitOfWork α) (callerSession : Option Nat)
    (freshId : Nat) (db : List Nat) : WrapResult α :=
  let sessClose :=
    match callerSession with
    | none => (freshId, true)
    | some s => (s, false)
  match fn.outcome with
  | Except.ok v =>
      { sessionUsed := sessClose.1, openedNew := sessClose.2,
        closedByWrapper := sessClose.2,
        committedDb := (runSession db fn.actions).1, result := Except.ok v }
  | Except.error e =>
      { sessionUsed := sessClose.1, openedNew := sessClose.2,
        closedByWrapper := sessClose.2,
        committedDb := (runSession db fn.actions).1, result := Except.error e }

/-- A row of the slice table as far as the timestamp lookup observes
it: the id and the acq_timestamp column (None never equals a concrete
timestamp in the query filter). -/
structure SliceRow where
  id : Nat
  acq_timestamp : Option Int
  deriving DecidableEq, Repr

/-- A row of the experiment table as far as the timestamp lookup
observes it. -/
structure ExperimentRow where
  id : Nat
  acq_timestamp : Option Int
  deriving DecidableEq, Repr

/-- A Python exception as raised by the lookup functions: the exception
class and the message. -/
inductive PyError
  | keyError (msg : String)
  | runtimeError (msg : String)
  deriving DecidableEq, Repr

/-- The rows returned by session.query(Slice).filter(Slice.acq_timestamp == ts).all(). -/
def sliceMatches (session : List SliceRow) (ts : Int) : List SliceRow :=
  session.filter fun s => s.acq_timestamp == some ts

/-- The rows returned by session.query(Experiment).filter(Experiment.acq_timestamp == ts).all(). -/
def experimentMatches (session : List ExperimentRow) (ts : Int) : List ExperimentRow :=
  session.filter fun e => e.acq_timestamp == some ts

/-- slice_from_timestamp of database.py: zero matches raise a KeyError
saying no slice was found, several matches raise a KeyError saying
multiple slices were found, one match is returned. -/
def slice_from_timestamp (session : List SliceRow) (ts : Int) : Except PyError SliceRow :=
  let slices := sliceMatches session ts
  if slices.length = 0 then
    Except.error (PyError.keyError ( "No slice found for timestamp " ++ toString ts))
  else if slices.length > 1 then
    Except.error (PyError.keyError ( "Multiple slices found for timestamp " ++ toString ts))
  else
    match slices.head? with
    | some s => Except.ok s
    | none => Except.error (PyError.keyError "unreachable")

/-- experiment_from_timestamp of database.py: zero matches raise a
KeyError, several matches raise a RuntimeError, one match is
returned. -/
def experiment_from_timestamp (session : List ExperimentRow) (ts : Int) :
    Except PyError ExperimentRow :=
  let expts := experimentMatches session ts
  if expts.length = 0 then
    Except.error (PyError.keyError ( "No experiment found for timestamp " ++ toString ts))
  else if expts.length > 1 then
    Except.error (PyError.runtimeError ( "Multiple experiments found for timestamp " ++ toString ts))
  else
    match expts.head? with
    | some e => Except.ok e
    | none => Except.error (PyError.keyError "unreachable")

/-- A concrete 3 by 4 array of eight-byte float bit patterns whose
second element is the quiet NaN pattern 0x7FF8000000000000. -/
def nanArray : NpArray :=
  { dtypeKind := 102, itemsize := 8, shape := [3, 4],
    data := [4607182418800017408, 9221120237041090560, 0, 1,
             4611686018427387904, 2, 3, 4613937818241073152,
             5, 6, 7, 9218868437227405312] }

/-- A table descriptor with a duplicate column name, used to settle the
duplicate-detection part of the schema validation claims. -/
def dupColumnTable : TableDescr :=
  { tname := "dup_demo",
    cols := [ { name := "a", coltype := "int" },
              { name := "a", coltype := "str" } ] }

/-- Boolean check that a generated mapping class carries the four
implicit columns and every declared column resolved through the
registry. -/
def checkTableGeneration (t : TableDescr) : Bool :=
  match _generate_mapping t with
  | Except.error _ => false
  | Except.ok m =>
      (List.lookup "id" m.props == some idColumn) &&
      (List.lookup "time_created" m.props == some timeCreatedColumn) &&
      (List.lookup "time_modified" m.props == some timeModifiedColumn) &&
      (List.lookup "meta" m.props == some metaColumn) &&
      t.cols.all fun c =>
        resolvable c && (List.lookup c.name m.props == some (resolveVal c))

/-- A minimal instance graph: one patch clamp recording pointing at its
nearest test pulse. -/
def c1Links : List EntLink :=
  [ (( "patch_clamp_recording", 1), "nearest_test_pulse", ( "test_pulse", 1)) ]

/-! ## Theorems -/

/-- Entities already in the deleted set stay in it across steps. -/
theorem mem_delStep (rels : List RelEdge) (links : List EntLink)
    (cur : List EntityRef) (e : EntityRef) (h : e ∈ cur) :
    e ∈ delStep rels links cur := by
  unfold delStep
  exact List.mem_append_left _ h

/-- Entities already in the deleted set stay in it across any number of
steps. -/
theorem mem_iterSteps (rels : List RelEdge) (links : List EntLink)
    (n : Nat) (cur : List EntityRef) (e : EntityRef) (h : e ∈ cur) :
    e ∈ iterSteps rels links n cur := by
  induction n generalizing cur with
  | zero => exact h
  | succ k ih =>
      unfold iterSteps
      exact ih _ (mem_delStep rels links cur e h)

/-- A fixed point of the cascade step is preserved by iteration. -/
theorem iterSteps_fixed (rels : List RelEdge) (links : List EntLink)
    (n : Nat) (cur : List EntityRef) (h : delStep rels links cur = cur) :
    iterSteps rels links n cur = cur := by
  induction n with
  | zero => rfl
  | succ k ih =>
      unfold iterSteps
      rw [h, ih]

theorem leBytes_length (k n : Nat) : (leBytes k n).length = k := by
  induction k generalizing n with
  | zero => rfl
  | succ m ih => simp [leBytes, ih]

theorem fromLE_leBytes (k n : Nat) (h : n < 256 ^ k) : fromLE (leBytes k n) = n := by
  induction k generalizing n with
  | zero =>
      simp [leBytes, fromLE]
      omega
  | succ m ih =>
      have hdiv : n / 256 < 256 ^ m := by
        rw [Nat.div_lt_iff_lt_mul (by norm_num : 0 < 256)]
        calc n < 256 ^ (m + 1) := h
        _ = 256 ^ m * 256 := by rw [Nat.pow_succ]
      simp only [leBytes, fromLE, ih (n / 256) hdiv]
      omega

theorem readElems_flatMap (k : Nat) (data : List Nat)
    (h : ∀ x ∈ data, x < 256 ^ k) (extra : List Nat) :
    readElems k data.length (data.flatMap (leBytes k) ++ extra) = data := by
  induction data with
  | nil => rfl
  | cons d ds ih =>
      have hlen : (leBytes k d).length = k := leBytes_length k d
      have hflat : (d :: ds).flatMap (leBytes k) = leBytes k d ++ ds.flatMap (leBytes k) := by
        simp [List.flatMap_cons]
      simp only [List.length_cons, readElems, hflat, List.append_assoc,
        List.take_left' hlen, List.drop_left' hlen,
        fromLE_leBytes k d (h d (List.mem_cons_self d ds)),
        ih fun x hx => h x (List.mem_cons_of_mem d hx)]

theorem parseShape_flatMap (sh : List Nat) (h : ∀ d ∈ sh, d < 256 ^ 8) :
    parseShape sh.length (sh.flatMap (leBytes 8)) = some (sh, []) := by
  induction sh with
  | nil => rfl
  | cons d ds ih =>
      have hlen : (leBytes 8 d).length = 8 := leBytes_length 8 d
      have hflat : (d :: ds).flatMap (leBytes 8) = leBytes 8 d ++ ds.flatMap (leBytes 8) := by
        simp [List.flatMap_cons]
      have hge : ¬((leBytes 8 d ++ ds.flatMap (leBytes 8)).length < 8) := by
        rw [List.length_append, hlen]
        omega
      simp only [List.length_cons, hflat, parseShape, if_neg hge,
        List.drop_left' hlen, List.take_left' hlen,
        ih fun x hx => h x (List.mem_cons_of_mem d hx),
        fromLE_leBytes 8 d (h d (List.mem_cons_self d ds))]

theorem flatMap_leBytes_length (k : Nat) (l : List Nat) :
    (l.flatMap (leBytes k)).length = l.length * k := by
  induction l with
  | nil => simp
  | cons d ds ih =>
      simp only [List.flatMap_cons, List.length_append, leBytes_length, ih,
        List.length_cons]
      ring

theorem npyHeader_length (a : NpArray) :
    (npyHeader a).length = 18 + 8 * a.shape.length := by
  simp only [npyHeader, List.length_cons, List.length_append, leBytes_length,
    flatMap_leBytes_length]
  omega

set_option maxHeartbeats 1000000 in
theorem parseHeader_npyHeader (a : NpArray) (h : wfArray a) :
    parseHeader (npyHeader a) = some (a.dtypeKind, a.itemsize, a.shape) := by
  obtain ⟨hk, hisz1, hisz, hdim, hdims, hlen, hdata⟩ := h
  have h8 : (leBytes 8 a.itemsize).length = 8 := leBytes_length _ _
  have h8n : (leBytes 8 a.shape.length).length = 8 := leBytes_length _ _
  have hcond : ¬((leBytes 8 a.itemsize ++ 0 :: (leBytes 8 a.shape.length ++
      a.shape.flatMap (leBytes 8))).length < 17) := by
    simp only [List.length_append, List.length_cons, h8, h8n]
    omega
  have hndim : a.shape.length < 256 ^ 8 := by
    calc a.shape.length ≤ 32 := hdim
    _ < 256 ^ 8 := by norm_num
  have htake1 : ((0 : Nat) :: (leBytes 8 a.shape.length ++
      a.shape.flatMap (leBytes 8))).take 1 = [0] := rfl
  have hdrop1 : ((0 : Nat) :: (leBytes 8 a.shape.length ++
      a.shape.flatMap (leBytes 8))).drop 1 = leBytes 8 a.shape.length ++
      a.shape.flatMap (leBytes 8) := rfl
  simp only [npyHeader, parseHeader, if_neg hcond]
  simp only [List.take_left' h8, List.drop_left' h8, fromLE_leBytes 8 a.itemsize hisz]
  simp only [htake1, hdrop1, ne_eq, not_true_eq_false, if_false, ite_false, ite_true]
  simp only [List.take_left' h8n, List.drop_left' h8n,
    fromLE_leBytes 8 a.shape.length hndim]
  simp only [parseShape_flatMap a.shape hdims, List.isEmpty_nil, if_true]

theorem np_load_np_save (a : NpArray) (h : wfArray a) :
    np_load (np_save a) = Except.ok a := by
  obtain ⟨hk, hisz1, hisz, hdim, hdims, hlen, hdata⟩ := h
  have hmag : npyMagic.length = 8 := rfl
  have h2 : (leBytes 2 (npyHeader a).length).length = 2 := leBytes_length _ _
  have hH : (npyHeader a).length < 256 ^ 2 := by
    rw [npyHeader_length a]
    omega
  have hdb : (a.data.flatMap (leBytes a.itemsize)).length = a.shape.prod * a.itemsize := by
    rw [flatMap_leBytes_length, hlen]
  have hsave : np_save a = npyMagic ++ (leBytes 2 (npyHeader a).length ++
      (npyHeader a ++ a.data.flatMap (leBytes a.itemsize))) := by
    simp [np_save, List.append_assoc]
  have hlencond : ¬((leBytes 2 (npyHeader a).length ++ (npyHeader a ++
      a.data.flatMap (leBytes a.itemsize))).length < 2) := by
    simp only [List.length_append, h2]
    omega
  have hhdrcond : ¬((npyHeader a ++ a.data.flatMap (leBytes a.itemsize)).length <
      (npyHeader a).length) := by
    simp only [List.length_append]
    omega
  have hdatacond : ¬((a.data.flatMap (leBytes a.itemsize)).length <
      a.shape.prod * a.itemsize) := by
    rw [hdb]
    exact Nat.lt_irrefl _
  have hread : readElems a.itemsize a.shape.prod (a.data.flatMap (leBytes a.itemsize)) =
      a.data := by
    have := readElems_flatMap a.itemsize a.data hdata []
    rw [List.append_nil] at this
    rw [← hlen, this]
  rw [hsave]
  simp only [np_load, List.take_left' hmag, List.drop_left' hmag, ne_eq,
    not_true_eq_false, if_false, ite_false, ite_true, if_neg hlencond,
    List.take_left' h2, List.drop_left' h2,
    fromLE_leBytes 2 (npyHeader a).length hH, if_neg hhdrcond,
    List.take_left, List.drop_left,
    parseHeader_npyHeader a ⟨hk, hisz1, hisz, hdim, hdims, hlen, hdata⟩,
    if_neg hdatacond, hread]

theorem resolveColumn_eq_ok (c : ColumnDescr) (h : resolvable c = true) :
    resolveColumn c = Except.ok (resolveVal c) := by
  unfold resolvable at h
  cases hl : List.lookup c.coltype _coltypes with
  | some t => simp [resolveColumn, resolveVal, hl]
  | none =>
      rw [hl] at h
      simp only [Option.isSome_none, Bool.false_or] at h
      simp [resolveColumn, resolveVal, hl, h]

theorem resolveColumn_eq_error (c : ColumnDescr) (h : resolvable c = false) :
    resolveColumn c = Except.error ( "Unrecognized column type " ++ c.coltype) := by
  unfold resolvable at h
  cases hl : List.lookup c.coltype _coltypes with
  | some t => rw [hl] at h; simp at h
  | none =>
      rw [hl] at h
      simp only [Option.isSome_none, Bool.false_or] at h
      simp [resolveColumn, hl, h]

theorem lookup_dictInsert (k q : String) (v : Column) (l : List ( String × Column)) :
    List.lookup q (dictInsert k v l) = if q = k then some v else List.lookup q l := by
  induction l with
  | nil =>
      by_cases hq : q = k
      · simp [dictInsert, List.lookup, hq]
      · simp [dictInsert, List.lookup, hq, beq_eq_false_iff_ne.mpr hq]
  | cons p rest ih =>
      obtain ⟨k2, v2⟩ := p
      by_cases hk : k2 = k
      · subst hk
        by_cases hq : q = k2
        · simp [dictInsert, List.lookup, hq]
        · simp [dictInsert, List.lookup, hq, beq_eq_false_iff_ne.mpr hq]
      · by_cases hq : q = k2
        · have hqk : ¬q = k := fun hcontra => hk (hq ▸ hcontra)
          simp [dictInsert, hk, List.lookup, hq, if_neg hqk]
        · simp [dictInsert, hk, List.lookup, beq_eq_false_iff_ne.mpr hq, ih]

theorem buildProps_eq_ok (cols : List ColumnDescr) (props : List ( String × Column))
    (h : ∀ c ∈ cols, resolvable c = true) :
    buildProps cols props = Except.ok (applyCols cols props) := by
  induction cols generalizing props with
  | nil => rfl
  | cons c rest ih =>
      have hc := h c (List.mem_cons_self c rest)
      simp only [buildProps, resolveColumn_eq_ok c hc, applyCols, List.foldl_cons]
      exact ih _ fun x hx => h x (List.mem_cons_of_mem c hx)

theorem lookup_applyCols (cols : List ColumnDescr) (props : List ( String × Column))
    (n : String) :
    List.lookup n (applyCols cols props) =
      match findLast n cols with
      | some c => some (resolveVal c)
      | none => List.lookup n props := by
  induction cols generalizing props with
  | nil => rfl
  | cons c rest ih =>
      simp only [applyCols, List.foldl_cons] at ih ⊢
      rw [ih]
      cases hf : findLast n rest with
      | some c2 => simp [findLast, hf]
      | none =>
          simp only [findLast, hf]
          rw [lookup_dictInsert]
          by_cases hq : n = c.name
          · simp [hq]
          · have : ¬(c.name = n) := fun hcontra => hq hcontra.symm
            simp [hq, this]

theorem buildProps_isError (cols : List ColumnDescr) (props : List ( String × Column)) :
    (∃ e, buildProps cols props = Except.error e) ↔ ∃ c ∈ cols, resolvable c = false := by
  induction cols generalizing props with
  | nil => simp [buildProps]
  | cons c rest ih =>
      by_cases hc : resolvable c = true
      · simp only [buildProps, resolveColumn_eq_ok c hc]
        rw [ih]
        constructor
        · rintro ⟨x, hx, hres⟩
          exact ⟨x, List.mem_cons_of_mem c hx, hres⟩
        · rintro ⟨x, hx, hres⟩
          rcases List.mem_cons.mp hx with hxc | hxr
          · subst hxc
            rw [hc] at hres
            cases hres
          · exact ⟨x, hxr, hres⟩
      · have hc2 : resolvable c = false := by
          cases hcv : resolvable c
          · rfl
          · exact absurd hcv hc
        simp only [buildProps, resolveColumn_eq_error c hc2]
        constructor
        · intro _
          exact ⟨c, List.mem_cons_self c rest, hc2⟩
        · intro _
          exact ⟨_, rfl⟩

theorem generate_mapping_ok (t : TableDescr) (h : ∀ c ∈ t.cols, resolvable c = true) :
    _generate_mapping t = Except.ok
      { clsName := pyCapitalize t.tname, tablename := t.tname,
        tableComment := t.tcomment, props := applyCols t.cols implicitProps } := by
  unfold _generate_mapping
  rw [buildProps_eq_ok t.cols implicitProps h]

/-! ## Claim theorems -/

/-- Claim C9: the array bind transform is not null-safe.  Binding None
through NDArray.process_bind_param raises the numpy ValueError, because
np.save with allow_pickle disabled cannot serialize the object array
that None coerces to, while FloatType.process_bind_param passes None
through unchanged. -/
theorem C9_ndarray_bind_none_raises :
    NDArray.process_bind_param none =
      Except.error "Object arrays cannot be saved when allow_pickle=False" ∧
    FloatType.process_bind_param none = Except.ok none :=
  ⟨rfl, rfl⟩

/-- Claim C2: for every well-formed array value, decoding the blob
produced by the bind transform yields an array with identical dtype,
shape and bit-exact element values. -/
theorem C2_ndarray_roundtrip (a : NpArray) (h : wfArray a) :
    NDArray.process_bind_param (some a) = Except.ok (np_save a) ∧
    NDArray.process_result_value (np_save a) = Except.ok a :=
  ⟨rfl, np_load_np_save a h⟩

/-- Witness for C2 at the NaN-carrying float array. -/
theorem C2_ndarray_roundtrip_witness :
    wfArray nanArray ∧
    NDArray.process_result_value (np_save nanArray) = Except.ok nanArray := by
  have hwf : wfArray nanArray := by decide
  exact ⟨hwf, (C2_ndarray_roundtrip nanArray hwf).2⟩

/-- Claim C4: when the caller supplies no session, the default_session
wrapper opens a fresh session, runs the wrapped function with it,
closes it whatever the outcome, and propagates the outcome; when the
caller supplies its own session, the wrapper runs the function with
that session and never closes it. -/
theorem C4_default_session_lifecycle {α : Type} (fn : UnitOfWork α) (freshId : Nat)
    (db : List Nat) (s : Nat) :
    ((default_session fn none freshId db).openedNew = true ∧
     (default_session fn none freshId db).sessionUsed = freshId ∧
     (default_session fn none freshId db).closedByWrapper = true ∧
     (default_session fn none freshId db).result = fn.outcome) ∧
    ((default_session fn (some s) freshId db).openedNew = false ∧
     (default_session fn (some s) freshId db).sessionUsed = s ∧
     (default_session fn (some s) freshId db).closedByWrapper = false ∧
     (default_session fn (some s) freshId db).result = fn.outcome) := by
  cases hf : fn.outcome with
  | ok v => simp [default_session, hf]
  | error e => simp [default_session, hf]

theorem runSession_fst_aux (acts : List SessOp) (db pend : List Nat)
    (h : SessOp.commit ∉ acts) :
    (acts.foldl
      (fun st a =>
        match a with
        | SessOp.write v => (st.1, st.2 ++ [v])
        | SessOp.commit => (st.1 ++ st.2, []))
      (db, pend)).1 = db := by
  induction acts generalizing db pend with
  | nil => rfl
  | cons a rest ih =>
      cases a with
      | write v =>
          simp only [List.foldl_cons]
          exact ih db (pend ++ [v]) fun hm => h (List.mem_cons_of_mem _ hm)
      | commit => exact absurd (List.mem_cons_self _ _) h

theorem runSession_no_commit (acts : List SessOp) (db : List Nat)
    (h : SessOp.commit ∉ acts) : (runSession db acts).1 = db :=
  runSession_fst_aux acts db [] h

/-- Claim C10: the default_session wrapper never commits the session it
opens, only closes it, so when the wrapped function itself performs no
commit the committed store is unchanged on exit. -/
theorem C10_default_session_discards {α : Type} (fn : UnitOfWork α) (freshId : Nat)
    (db : List Nat) (h : SessOp.commit ∉ fn.actions) :
    (default_session fn none freshId db).committedDb = db ∧
    (default_session fn none freshId db).closedByWrapper = true := by
  have hrun : (runSession db fn.actions).1 = db := runSession_no_commit fn.actions db h
  cases hf : fn.outcome with
  | ok v => exact ⟨by simp [default_session, hf, hrun], by simp [default_session, hf]⟩
  | error e => exact ⟨by simp [default_session, hf, hrun], by simp [default_session, hf]⟩

/-- Witness for C10: a unit of work that writes without committing
leaves the committed store unchanged. -/
theorem C10_default_session_discards_witness :
    SessOp.commit ∉ [SessOp.write 7] ∧
    (default_session { actions := [SessOp.write 7], outcome := Except.ok 0 }
      none 1 [5]).committedDb = [5] := by
  have h : SessOp.commit ∉ [SessOp.write 7] := by decide
  exact ⟨h, (C10_default_session_discards
    { actions := [SessOp.write 7], outcome := Except.ok 0 } 1 [5] h).1⟩

/-- Claim C3: for both timestamp lookups, exactly one matching row is
returned, zero matching rows raise the not-found error, and two or
more matching rows raise the ambiguity error (a KeyError with a
distinct message for slices, a RuntimeError for experiments). -/
theorem C3_lookup_multiplicity (sdb : List SliceRow) (edb : List ExperimentRow)
    (ts : Int) :
    (sliceMatches sdb ts = [] →
       slice_from_timestamp sdb ts =
         Except.error (PyError.keyError ( "No slice found for timestamp " ++ toString ts))) ∧
    (∀ s, sliceMatches sdb ts = [s] → slice_from_timestamp sdb ts = Except.ok s) ∧
    (2 ≤ (sliceMatches sdb ts).length →
       slice_from_timestamp sdb ts =
         Except.error (PyError.keyError ( "Multiple slices found for timestamp " ++ toString ts))) ∧
    (experimentMatches edb ts = [] →
       experiment_from_timestamp edb ts =
         Except.error (PyError.keyError ( "No experiment found for timestamp " ++ toString ts))) ∧
    (∀ e, experimentMatches edb ts = [e] → experiment_from_timestamp edb ts = Except.ok e) ∧
    (2 ≤ (experimentMatches edb ts).length →
       experiment_from_timestamp edb ts =
         Except.error (PyError.runtimeError ( "Multiple experiments found for timestamp " ++ toString ts))) := by
  refine ⟨?_, ?_, ?_, ?_, ?_, ?_⟩
  · intro h
    simp [slice_from_timestamp, h]
  · intro s h
    simp [slice_from_timestamp, h]
  · intro h
    have h0 : ¬((sliceMatches sdb ts).length = 0) := by omega
    have h1 : (sliceMatches sdb ts).length > 1 := by omega
    simp [slice_from_timestamp, h0, h1]
  · intro h
    simp [experiment_from_timestamp, h]
  · intro e h
    simp [experiment_from_timestamp, h]
  · intro h
    have h0 : ¬((experimentMatches edb ts).length = 0) := by omega
    have h1 : (experimentMatches edb ts).length > 1 := by omega
    simp [experiment_from_timestamp, h0, h1]

/-- Witness for C3: a store with exactly one matching slice returns
that slice. -/
theorem C3_lookup_multiplicity_witness :
    sliceMatches [{ id := 1, acq_timestamp := some 5 }] 5 =
      [{ id := 1, acq_timestamp := some 5 }] ∧
    slice_from_timestamp [{ id := 1, acq_timestamp := some 5 }] 5 =
      Except.ok { id := 1, acq_timestamp := some 5 } := by
  have h : sliceMatches [{ id := 1, acq_timestamp := some 5 }] 5 =
      [{ id := 1, acq_timestamp := some 5 }] := by decide
  exact ⟨h, (C3_lookup_multiplicity [{ id := 1, acq_timestamp := some 5 }] [] 5).2.1 _ h⟩

/-- Counterexample to claim C5: a table descriptor with a duplicate
column name does not raise a schema-validation error; generation
succeeds and the later declaration silently replaces the earlier one in
the props dict. -/
theorem C5_duplicate_column_counterexample :
    _generate_mapping dupColumnTable = Except.ok
      { clsName := "Dup_demo", tablename := "dup_demo", tableComment := none,
        props :=
          [ ( "id", idColumn),
            ( "time_created", timeCreatedColumn),
            ( "time_modified", timeModifiedColumn),
            ( "meta", metaColumn),
            ( "a", { ctype := SqlType.string }) ] } :=
  rfl

/-- Claim C5 as amended: generation fails with the ValueError naming
the offending type exactly when some declared column has an
unresolvable logical type, and otherwise produces the full model in
which, for every name, the props dict holds the resolution of the last
declared column of that name, falling back to the implicit columns —
so a duplicate column name is never an error, the later declaration
silently winning. -/
theorem C5_generation_error_characterization (t : TableDescr) :
    ((∃ e, _generate_mapping t = Except.error e) ↔
       ∃ c ∈ t.cols, resolvable c = false) ∧
    ((∀ c ∈ t.cols, resolvable c = true) →
       ∃ m, _generate_mapping t = Except.ok m ∧
         ∀ n, List.lookup n m.props =
           match findLast n t.cols with
           | some c => some (resolveVal c)
           | none => List.lookup n implicitProps) := by
  constructor
  · constructor
    · rintro ⟨e, he⟩
      apply (buildProps_isError t.cols implicitProps).mp
      unfold _generate_mapping at he
      cases hb : buildProps t.cols implicitProps with
      | error e2 => exact ⟨e2, rfl⟩
      | ok p =>
          rw [hb] at he
          simp at he
    · intro hex
      obtain ⟨e, he⟩ := (buildProps_isError t.cols implicitProps).mpr hex
      exact ⟨e, by simp [_generate_mapping, he]⟩
  · intro h
    refine ⟨_, generate_mapping_ok t h, fun n => ?_⟩
    exact lookup_applyCols t.cols implicitProps n

/-- Witness for the amended C5 at the duplicate-name descriptor: all
its column types resolve, so generation succeeds. -/
theorem C5_generation_error_characterization_witness :
    (∀ c ∈ dupColumnTable.cols, resolvable c = true) ∧
    ∃ m, _generate_mapping dupColumnTable = Except.ok m := by
  have h : ∀ c ∈ dupColumnTable.cols, resolvable c = true := by decide
  obtain ⟨m, hm, _⟩ := (C5_generation_error_characterization dupColumnTable).2 h
  exact ⟨h, m, hm⟩

/-- Claim C6: a column whose logical type string is not in the
registry fails generation with the ValueError naming the type unless
the string ends in .id, in which case it resolves to an integer
foreign-key column. -/
theorem C6_unknown_type_fk_pattern (c : ColumnDescr) (t : TableDescr)
    (hreg : List.lookup c.coltype _coltypes = none) :
    (pyEndswith c.coltype ".id" = false →
       resolveColumn c = Except.error ( "Unrecognized column type " ++ c.coltype) ∧
       (c ∈ t.cols → ∃ e, _generate_mapping t = Except.error e)) ∧
    (pyEndswith c.coltype ".id" = true →
       resolveColumn c = Except.ok
         { ctype := SqlType.integer, foreignKey := some c.coltype,
           comment := c.comment,
           unique := (List.lookup "unique" c.kwds).getD false }) := by
  constructor
  · intro hend
    have hres : resolvable c = false := by simp [resolvable, hreg, hend]
    refine ⟨resolveColumn_eq_error c hres, fun hmem => ?_⟩
    obtain ⟨e, he⟩ := (buildProps_isError t.cols implicitProps).mpr ⟨c, hmem, hres⟩
    exact ⟨e, by simp [_generate_mapping, he]⟩
  · intro hend
    simp [resolveColumn, hreg, hend]

/-- Witness for C6 at the slice.id foreign-key string. -/
theorem C6_unknown_type_fk_pattern_witness :
    List.lookup "slice.id" _coltypes = none ∧
    resolveColumn { name := "slice_id", coltype := "slice.id" } =
      Except.ok { ctype := SqlType.integer, foreignKey := some "slice.id" } := by
  have h1 : List.lookup "slice.id" _coltypes = none := by decide
  have h2 : pyEndswith "slice.id" ".id" = true := by decide
  have h3 := (C6_unknown_type_fk_pattern { name := "slice_id", coltype := "slice.id" }
    sliceTable h1).2 h2
  exact ⟨h1, h3⟩

/-- Claim C7: every table descriptor of table_schemas generates a
mapping class whose props dict carries the integer primary-key id
column, the insertion timestamp column, the update timestamp column and
the JSONB meta column, together with every declared column resolved
through the column type registry. -/
theorem C7_implicit_columns (t : TableDescr) (h : t ∈ table_schemas) :
    ∃ m, _generate_mapping t = Except.ok m ∧
      List.lookup "id" m.props = some idColumn ∧
      List.lookup "time_created" m.props = some timeCreatedColumn ∧
      List.lookup "time_modified" m.props = some timeModifiedColumn ∧
      List.lookup "meta" m.props = some metaColumn ∧
      ∀ c ∈ t.cols, resolveColumn c = Except.ok (resolveVal c) ∧
        List.lookup c.name m.props = some (resolveVal c) := by
  have hall : table_schemas.all checkTableGeneration = true := by decide
  have hc : checkTableGeneration t = true := List.all_eq_true.mp hall t h
  revert hc
  unfold checkTableGeneration
  cases hgen : _generate_mapping t with
  | error e => intro hc; cases hc
  | ok m =>
      intro hc
      simp only [Bool.and_eq_true, List.all_eq_true, beq_iff_eq] at hc
      obtain ⟨⟨⟨⟨h1, h2⟩, h3⟩, h4⟩, h5⟩ := hc
      refine ⟨m, rfl, h1, h2, h3, h4, fun c hcm => ?_⟩
      obtain ⟨ha, hb⟩ := h5 c hcm
      exact ⟨resolveColumn_eq_ok c ha, hb⟩

/-- Witness for C7 at the sync_rec table. -/
theorem C7_implicit_columns_witness :
    syncRecTable ∈ table_schemas ∧
    ∃ m, _generate_mapping syncRecTable = Except.ok m ∧
      List.lookup "meta" m.props = some metaColumn := by
  have hmem : syncRecTable ∈ table_schemas := by simp [table_schemas]
  obtain ⟨m, hgen, _, _, _, hmeta, _⟩ := C7_implicit_columns syncRecTable hmem
  exact ⟨hmem, m, hgen, hmeta⟩

/-- Claim C8: a declared column whose name collides with one of the
implicit columns silently replaces the implicit column definition via
dict assignment instead of raising an error; the props dict then maps
the name to the declared resolution, as happens for the declared meta
column of sync_rec. -/
theorem C8_declared_shadows_implicit (t : TableDescr) (c : ColumnDescr)
    (_hcollide : c.name ∈ [ "id", "time_created", "time_modified", "meta" ])
    (hlast : findLast c.name t.cols = some c)
    (hres : ∀ x ∈ t.cols, resolvable x = true) :
    ∃ m, _generate_mapping t = Except.ok m ∧
      List.lookup c.name m.props = some (resolveVal c) := by
  refine ⟨_, generate_mapping_ok t hres, ?_⟩
  rw [lookup_applyCols, hlast]

/-- Witness for C8 at the declared meta column of sync_rec. -/
theorem C8_declared_shadows_implicit_witness :
    findLast "meta" syncRecTable.cols = some { name := "meta", coltype := "object" } ∧
    ∃ m, _generate_mapping syncRecTable = Except.ok m ∧
      List.lookup "meta" m.props =
        some (resolveVal { name := "meta", coltype := "object" }) := by
  have hcollide : ( "meta" : String) ∈ [ "id", "time_created", "time_modified", "meta" ] := by
    decide
  have hlast : findLast "meta" syncRecTable.cols =
      some { name := "meta", coltype := "object" } := by decide
  have hres : ∀ x ∈ syncRecTable.cols, resolvable x = true := by decide
  obtain ⟨m, hm, hl⟩ := C8_declared_shadows_implicit syncRecTable
    { name := "meta", coltype := "object" } hcollide hlast hres
  exact ⟨hlast, m, hm, hl⟩

/-- Counterexample to claim C1: the nearest_test_pulse relationship is
declared with the delete cascade (and single_parent), so deleting the
referencing patch clamp recording also deletes the referenced test
pulse: the test pulse falls inside the delete closure and is gone from
the database afterwards. -/
theorem C1_nearest_test_pulse_cascades :
    ( "test_pulse", 1) ∈ deleteClosure relationships c1Links ( "patch_clamp_recording", 1) ∧
    deleteCascade relationships c1Links
      [( "patch_clamp_recording", 1), ( "test_pulse", 1)]
      ( "patch_clamp_recording", 1) = [] := by
  decide

theorem pulse_response_no_cascade_attr (attr : String) :
    (relationships.any fun r =>
      r.src == "pulse_response" && r.attr == attr && r.cascadeDelete) = false := by
  rw [List.any_eq_false]
  intro r hr
  fin_cases hr <;> simp

theorem pulse_response_delStep_fixed (links : List EntLink) (n : Nat) :
    delStep relationships links [( "pulse_response", n)] = [( "pulse_response", n)] := by
  have htar : cascadeTargets relationships links [( "pulse_response", n)] = [] := by
    unfold cascadeTargets
    rw [List.filter_eq_nil_iff.mpr, List.map_nil]
    intro l hl
    by_cases hsrc : l.1 = ( "pulse_response", n)
    · have hfst : l.1.1 = "pulse_response" := by rw [hsrc]
      simp [hfst, pulse_response_no_cascade_attr l.2.1]
    · simp [List.contains_cons, beq_eq_false_iff_ne.mpr hsrc]
      intro hcontra
      exact absurd hcontra hsrc
  unfold delStep
  rw [htar]
  rfl

/-- Claim C1 as amended: the pulse-response reference edges (recording,
stimulus pulse, baseline) carry no delete cascade, so deleting a pulse
response deletes nothing else — its delete closure is itself alone —
while the patch-clamp-recording pointer to its nearest test pulse is
declared with the delete cascade, so deleting the referencing patch
clamp recording also removes the referenced test pulse. -/
theorem C1_cascade_policy (links : List EntLink) (n m : Nat)
    (h : (( "patch_clamp_recording", n), "nearest_test_pulse", ( "test_pulse", m)) ∈ links) :
    ( "test_pulse", m) ∈ deleteClosure relationships links ( "patch_clamp_recording", n) ∧
    deleteClosure relationships links ( "pulse_response", n) = [( "pulse_response", n)] := by
  constructor
  · have hrel : (relationships.any fun r =>
        r.src == "patch_clamp_recording" && r.attr == "nearest_test_pulse" &&
          r.cascadeDelete) = true := by decide
    have htmem : ( "test_pulse", m) ∈
        cascadeTargets relationships links [( "patch_clamp_recording", n)] := by
      refine List.mem_map.mpr ⟨(( "patch_clamp_recording", n), "nearest_test_pulse",
        ( "test_pulse", m)), List.mem_filter.mpr ⟨h, ?_⟩, rfl⟩
      simp [hrel]
    have hstep : ( "test_pulse", m) ∈
        delStep relationships links [( "patch_clamp_recording", n)] := by
      unfold delStep
      apply List.mem_append_right
      refine List.mem_filter.mpr ⟨htmem, ?_⟩
      simp
    unfold deleteClosure iterSteps
    exact mem_iterSteps relationships links links.length _ _ hstep
  · unfold deleteClosure
    exact iterSteps_fixed relationships links _ _ (pulse_response_delStep_fixed links n)

/-- Witness for the amended C1 on the minimal instance graph. -/
theorem C1_cascade_policy_witness :
    (( ( "patch_clamp_recording", 1), "nearest_test_pulse", ( "test_pulse", 1)) ∈ c1Links) ∧
    ( "test_pulse", 1) ∈ deleteClosure relationships c1Links ( "patch_clamp_recording", 1) ∧
    deleteClosure relationships c1Links ( "pulse_response", 1) = [( "pulse_response", 1)] := by
  have hmem : (( ( "patch_clamp_recording", 1), "nearest_test_pulse",
      ( "test_pulse", 1)) : EntLink) ∈ c1Links := List.mem_cons_self _ _
  exact ⟨hmem, (C1_cascade_policy c1Links 1 1 hmem).1,
    (C1_cascade_policy c1Links 1 1 hmem).2⟩
